import Mathlib

/-!
Verification development for the fullstack-template repository.

The development shallowly embeds the configuration core of the repository:
the environment loader (worker/config/environment.ts), the tiered settings
table and config composer (worker/config/app-settings.ts and the main
config module), the dependency-injection container
(worker/container/container.ts), the feature-flag evaluator
(lib/feature-flags.ts) and the BaseService list helpers.

Conventions of the embedding:
- TypeScript optional fields become Option; absence models undefined.
- JavaScript string-keyed objects and Maps become functions
  String -> Option _, updated pointwise.
- Fallible code returns Except String.
- Mutation of shared state (the service registry shared by reference
  between a parent container and a derived container) is made explicit by
  a World record holding all registries; containers hold an index into it.
- For the BaseService helpers, each operation returns, next to its result,
  the contents of the callers array after the call, translating the
  mutation behaviour of the JavaScript array methods used (slice and
  filter do not mutate the receiver; sort sorts the receiver in place).
-/

namespace FullstackTemplate

/-! ## Environment loader (worker/config/environment.ts) -/

/-- The raw environment handed to validation: the fields declared by
EnvironmentSchema. `DB` and `KV` are Cloudflare bindings validated by
z.custom, so only their presence matters here. All other fields are
optional strings, except SMTP_PORT which zod coerces to a number. -/
structure RawEnvironment where
  DB : Option Unit := none
  KV : Option Unit := none
  NODE_ENV : Option String := none
  DATABASE_URL : Option String := none
  BETTER_AUTH_SECRET : Option String := none
  BETTER_AUTH_URL : Option String := none
  GITHUB_CLIENT_ID : Option String := none
  GITHUB_CLIENT_SECRET : Option String := none
  GOOGLE_CLIENT_ID : Option String := none
  GOOGLE_CLIENT_SECRET : Option String := none
  SMTP_HOST : Option String := none
  SMTP_PORT : Option Int := none
  SMTP_USER : Option String := none
  SMTP_PASS : Option String := none
  API_KEY : Option String := none
  WEBHOOK_SECRET : Option String := none
  REDIS_URL : Option String := none
  SENTRY_DSN : Option String := none
  CLOUDFLARE_ACCOUNT_ID : Option String := none
  CLOUDFLARE_DATABASE_ID : Option String := none
  CLOUDFLARE_D1_TOKEN : Option String := none
deriving Repr, DecidableEq

/-- The environment after a successful EnvironmentSchema.parse: NODE_ENV
has received its default and is one of the three tier names. -/
structure ValidatedEnvironment where
  DB : Option Unit := none
  KV : Option Unit := none
  NODE_ENV : String := "development"
  DATABASE_URL : Option String := none
  BETTER_AUTH_SECRET : Option String := none
  BETTER_AUTH_URL : Option String := none
  GITHUB_CLIENT_ID : Option String := none
  GITHUB_CLIENT_SECRET : Option String := none
  GOOGLE_CLIENT_ID : Option String := none
  GOOGLE_CLIENT_SECRET : Option String := none
  SMTP_HOST : Option String := none
  SMTP_PORT : Option Int := none
  SMTP_USER : Option String := none
  SMTP_PASS : Option String := none
  API_KEY : Option String := none
  WEBHOOK_SECRET : Option String := none
  REDIS_URL : Option String := none
  SENTRY_DSN : Option String := none
  CLOUDFLARE_ACCOUNT_ID : Option String := none
  CLOUDFLARE_DATABASE_ID : Option String := none
  CLOUDFLARE_D1_TOKEN : Option String := none
deriving Repr, DecidableEq

/-- Modelled from the spec: the zod url() refinement on BETTER_AUTH_URL
(the library internals are not part of this repository). A string passes
when it splits as scheme://rest with a nonempty scheme and nonempty rest.
No claim depends on the exact url grammar. -/
def isUrlString (s : String) : Bool :=
  match s.splitOn "://" with
  | scheme :: rest :: _ => !scheme.isEmpty && !rest.isEmpty
  | _ => false

/-- z.enum([development, staging, production]).default(development):
absence yields the default, any other string is a validation issue. -/
def parseNodeEnv : Option String → Except String String
  | none => .ok "development"
  | some s =>
    if s = "development" || s = "staging" || s = "production" then .ok s
    else .error "NODE_ENV: invalid enum value"

/-- z.string().min(32).optional() on BETTER_AUTH_SECRET. -/
def parseSecret : Option String → Except String (Option String)
  | none => .ok none
  | some s =>
    if 32 ≤ s.length then .ok (some s)
    else .error "BETTER_AUTH_SECRET: string must contain at least 32 characters"

/-- z.string().url().optional() on BETTER_AUTH_URL. -/
def parseUrlOpt : Option String → Except String (Option String)
  | none => .ok none
  | some s => if isUrlString s then .ok (some s) else .error "BETTER_AUTH_URL: invalid url"

/-- EnvironmentSchema.parse. The remaining fields are plain optional
strings (or an optional coerced number) and pass through unchanged. zod
collects every issue before throwing; only whether the parse throws is
observable here, so the checks run in sequence. -/
def parseEnvironment (e : RawEnvironment) : Except String ValidatedEnvironment :=
  match parseNodeEnv e.NODE_ENV with
  | .error err => .error err
  | .ok nodeEnv =>
  match parseSecret e.BETTER_AUTH_SECRET with
  | .error err => .error err
  | .ok secret =>
  match parseUrlOpt e.BETTER_AUTH_URL with
  | .error err => .error err
  | .ok authUrl =>
  .ok {
    DB := e.DB, KV := e.KV, NODE_ENV := nodeEnv,
    DATABASE_URL := e.DATABASE_URL,
    BETTER_AUTH_SECRET := secret, BETTER_AUTH_URL := authUrl,
    GITHUB_CLIENT_ID := e.GITHUB_CLIENT_ID, GITHUB_CLIENT_SECRET := e.GITHUB_CLIENT_SECRET,
    GOOGLE_CLIENT_ID := e.GOOGLE_CLIENT_ID, GOOGLE_CLIENT_SECRET := e.GOOGLE_CLIENT_SECRET,
    SMTP_HOST := e.SMTP_HOST, SMTP_PORT := e.SMTP_PORT,
    SMTP_USER := e.SMTP_USER, SMTP_PASS := e.SMTP_PASS,
    API_KEY := e.API_KEY, WEBHOOK_SECRET := e.WEBHOOK_SECRET,
    REDIS_URL := e.REDIS_URL, SENTRY_DSN := e.SENTRY_DSN,
    CLOUDFLARE_ACCOUNT_ID := e.CLOUDFLARE_ACCOUNT_ID,
    CLOUDFLARE_DATABASE_ID := e.CLOUDFLARE_DATABASE_ID,
    CLOUDFLARE_D1_TOKEN := e.CLOUDFLARE_D1_TOKEN }

/-- EnvironmentSchema.parse applied to the empty object: every optional
field is absent and NODE_ENV receives its default. -/
def defaultEnvironment : ValidatedEnvironment := {}

/-- validateEnvironment: parse, and on a ZodError swallow the failure and
return the all-defaults parse only when the raw NODE_ENV field is the
literal string for the development tier; otherwise rethrow. -/
def validateEnvironment (env : RawEnvironment) : Except String ValidatedEnvironment :=
  match parseEnvironment env with
  | .ok v => .ok v
  | .error e =>
    if env.NODE_ENV = some "development" then
      .ok defaultEnvironment
    else
      .error ("Environment validation failed: " ++ e)

/-- validateProductionEnvironment: fatal when NODE_ENV is production and
the auth secret is absent or shorter than 32 characters. The missing DB
binding only emits a console warning, which is not fatal and therefore
not part of the Except result. -/
def validateProductionEnvironment (env : ValidatedEnvironment) : Except String Unit :=
  if env.NODE_ENV = "production" then
    match env.BETTER_AUTH_SECRET with
    | none => .error "BETTER_AUTH_SECRET is required in production"
    | some s =>
      if s.length < 32 then
        .error "BETTER_AUTH_SECRET must be at least 32 characters in production"
      else
        .ok ()
  else
    .ok ()

/-! ## Tiered settings table (worker/config/app-settings.ts) -/

/-- app group of AppSettings. The environment field is the literal tier
name (an enum of three strings in the source). -/
structure AppIdentity where
  name : String
  version : String
  environment : String
deriving Repr, DecidableEq

/-- database group of AppSettings. -/
structure DatabaseSettings where
  maxConnections : Nat
  queryTimeout : Nat
  enableLogging : Bool
  retryAttempts : Nat
deriving Repr, DecidableEq

/-- auth group of AppSettings. -/
structure AuthSettings where
  sessionDuration : Nat
  tokenExpiry : Nat
  requireEmailVerification : Bool
  allowedDomains : Option (List String) := none
deriving Repr, DecidableEq

/-- features group of AppSettings. -/
structure FeatureToggles where
  registration : Bool
  oauth : Bool
  emailVerification : Bool
  maintenanceMode : Bool
  betaFeatures : Bool
deriving Repr, DecidableEq

/-- rateLimit group of AppSettings. -/
structure RateLimitSettings where
  requests : Nat
  windowMs : Nat
  skipSuccessfulRequests : Bool
  skipFailedRequests : Bool
deriving Repr, DecidableEq

/-- logging group of AppSettings. level is one of debug, info, warn,
error in the source enum. -/
structure LoggingSettings where
  level : String
  enableRequestLogging : Bool
  enableErrorTracking : Bool
  maxLogSize : Nat
deriving Repr, DecidableEq

/-- email.templates sub-group of AppSettings. -/
structure EmailTemplates where
  welcome : String
  passwordReset : String
  emailVerification : String
deriving Repr, DecidableEq

/-- email group of AppSettings. The source field named from becomes
fromAddr, since from is a reserved word in Lean. -/
structure EmailSettings where
  fromAddr : String
  replyTo : Option String := none
  templates : EmailTemplates
deriving Repr, DecidableEq

/-- performance group of AppSettings. -/
structure PerformanceSettings where
  enableCaching : Bool
  cacheTimeout : Nat
  enableCompression : Bool
deriving Repr, DecidableEq

/-- security group of AppSettings. -/
structure SecuritySettings where
  corsOrigins : List String
  allowedHosts : List String
  enableCSP : Bool
  rateLimitStrict : Bool
deriving Repr, DecidableEq

/-- api.openapi.contact sub-group. -/
structure OpenApiContact where
  name : String
  email : String
deriving Repr, DecidableEq

/-- api.openapi.license sub-group. -/
structure OpenApiLicense where
  name : String
  url : String
deriving Repr, DecidableEq

/-- One entry of api.openapi.servers. -/
structure OpenApiServer where
  url : String
  description : String
deriving Repr, DecidableEq

/-- One entry of api.openapi.tags. -/
structure OpenApiTag where
  name : String
  description : String
deriving Repr, DecidableEq

/-- api.openapi group of AppSettings. -/
structure OpenApiSettings where
  version : String
  title : String
  description : String
  contact : OpenApiContact
  license : OpenApiLicense
  servers : List OpenApiServer
  tags : List OpenApiTag
deriving Repr, DecidableEq

/-- api group of AppSettings. -/
structure ApiSettings where
  openapi : OpenApiSettings
deriving Repr, DecidableEq

/-- The fixed-shape per-tier settings bundle. -/
structure AppSettings where
  app : AppIdentity
  database : DatabaseSettings
  auth : AuthSettings
  features : FeatureToggles
  rateLimit : RateLimitSettings
  logging : LoggingSettings
  email : EmailSettings
  performance : PerformanceSettings
  security : SecuritySettings
  api : ApiSettings
deriving Repr, DecidableEq

/-- The openapi metadata shared verbatim by the three bundles except for
the contact email and servers list. -/
def templateOpenApi (contactEmail : String) (servers : List OpenApiServer) : OpenApiSettings :=
  { version := "1.0.0"
    title := "Fullstack Template API"
    description := "A comprehensive API built with Hono, featuring RPC type safety and OpenAPI documentation"
    contact := { name := "API Support", email := contactEmail }
    license := { name := "MIT", url := "https://opensource.org/licenses/MIT" }
    servers := servers
    tags := [
      { name := "Users", description := "User profile management operations" },
      { name := "Authentication", description := "User authentication and authorization" },
      { name := "System", description := "System health and utility endpoints" }] }

/-- developmentSettings from app-settings.ts. -/
def developmentSettings : AppSettings :=
  { app := { name := "Modern Template", version := "1.0.0", environment := "development" }
    database := { maxConnections := 5, queryTimeout := 10000,
                  enableLogging := true, retryAttempts := 3 }
    auth := { sessionDuration := 24 * 60 * 60 * 1000, tokenExpiry := 15 * 60 * 1000,
              requireEmailVerification := false,
              allowedDomains := some ["localhost", "127.0.0.1"] }
    features := { registration := true, oauth := false, emailVerification := false,
                  maintenanceMode := true, betaFeatures := true }
    rateLimit := { requests := 1000, windowMs := 60000,
                   skipSuccessfulRequests := false, skipFailedRequests := false }
    logging := { level := "debug", enableRequestLogging := true,
                 enableErrorTracking := true, maxLogSize := 1024 * 1024 }
    email := { fromAddr := "dev@yourapp.com", replyTo := some "dev@yourapp.com",
               templates := { welcome := "Welcome to our app (Dev)",
                              passwordReset := "Password reset (Dev)",
                              emailVerification := "Verify your email (Dev)" } }
    performance := { enableCaching := false, cacheTimeout := 300000,
                     enableCompression := false }
    security := { corsOrigins := ["http://localhost:5173", "http://localhost:3000"],
                  allowedHosts := ["localhost", "127.0.0.1"],
                  enableCSP := false, rateLimitStrict := false }
    api := { openapi := (templateOpenApi "dev@yourapp.com" [{ url := "/", description := "Development server" },
       { url := "http://localhost:5173", description := "Local development server" }]) } }

/-- stagingSettings from app-settings.ts. -/
def stagingSettings : AppSettings :=
  { app := { name := "Modern Template", version := "1.0.0", environment := "staging" }
    database := { maxConnections := 10, queryTimeout := 20000,
                  enableLogging := true, retryAttempts := 3 }
    auth := { sessionDuration := 7 * 24 * 60 * 60 * 1000, tokenExpiry := 30 * 60 * 1000,
              requireEmailVerification := true, allowedDomains := none }
    features := { registration := true, oauth := true, emailVerification := true,
                  maintenanceMode := false, betaFeatures := true }
    rateLimit := { requests := 500, windowMs := 60000,
                   skipSuccessfulRequests := true, skipFailedRequests := false }
    logging := { level := "info", enableRequestLogging := true,
                 enableErrorTracking := true, maxLogSize := 5 * 1024 * 1024 }
    email := { fromAddr := "staging@yourapp.com", replyTo := some "support@yourapp.com",
               templates := { welcome := "Welcome to our app",
                              passwordReset := "Password reset request",
                              emailVerification := "Verify your email address" } }
    performance := { enableCaching := true, cacheTimeout := 600000,
                     enableCompression := true }
    security := { corsOrigins := ["https://staging.yourapp.com"],
                  allowedHosts := ["staging.yourapp.com"],
                  enableCSP := true, rateLimitStrict := true }
    api := { openapi := (templateOpenApi "support@yourapp.com" [{ url := "https://staging.yourapp.com/api/v1", description := "Staging server" }]) } }

/-- productionSettings from app-settings.ts. -/
def productionSettings : AppSettings :=
  { app := { name := "Modern Template", version := "1.0.0", environment := "production" }
    database := { maxConnections := 20, queryTimeout := 30000,
                  enableLogging := false, retryAttempts := 5 }
    auth := { sessionDuration := 7 * 24 * 60 * 60 * 1000, tokenExpiry := 60 * 60 * 1000,
              requireEmailVerification := true, allowedDomains := none }
    features := { registration := true, oauth := true, emailVerification := true,
                  maintenanceMode := false, betaFeatures := false }
    rateLimit := { requests := 100, windowMs := 60000,
                   skipSuccessfulRequests := true, skipFailedRequests := false }
    logging := { level := "warn", enableRequestLogging := false,
                 enableErrorTracking := true, maxLogSize := 10 * 1024 * 1024 }
    email := { fromAddr := "noreply@yourapp.com", replyTo := some "support@yourapp.com",
               templates := { welcome := "Welcome to our app",
                              passwordReset := "Password reset request",
                              emailVerification := "Verify your email address" } }
    performance := { enableCaching := true, cacheTimeout := 3600000,
                     enableCompression := true }
    security := { corsOrigins := ["https://yourapp.com", "https://www.yourapp.com"],
                  allowedHosts := ["yourapp.com", "www.yourapp.com"],
                  enableCSP := true, rateLimitStrict := true }
    api := { openapi := (templateOpenApi "support@yourapp.com" [{ url := "https://yourapp.com", description := "Production server" }]) } }

/-- getAppSettings: select the bundle by tier name; any other string
falls to the development default. -/
def getAppSettings (environment : String) : AppSettings :=
  match environment with
  | "production" => productionSettings
  | "staging" => stagingSettings
  | _ => developmentSettings

/-! ## Config composer (the main config module) -/

/-- AppConfig.database: env DATABASE_URL plus the settings knobs. -/
structure ConfigDatabase where
  url : Option String
  maxConnections : Nat
  queryTimeout : Nat
  enableLogging : Bool
  retryAttempts : Nat
deriving Repr, DecidableEq

/-- One OAuth provider credential pair from the environment. -/
structure ConfigOAuthProvider where
  clientId : Option String
  clientSecret : Option String
deriving Repr, DecidableEq

/-- AppConfig.auth.oauth. -/
structure ConfigOAuth where
  github : ConfigOAuthProvider
  google : ConfigOAuthProvider
deriving Repr, DecidableEq

/-- AppConfig.auth: env secrets plus the settings durations. -/
structure ConfigAuth where
  secret : Option String
  baseUrl : Option String
  sessionDuration : Nat
  tokenExpiry : Nat
  requireEmailVerification : Bool
  oauth : ConfigOAuth
deriving Repr, DecidableEq

/-- AppConfig.email.smtp, present only when SMTP_HOST was supplied. -/
structure ConfigSmtp where
  host : Option String
  port : Option Int
  user : Option String
  pass : Option String
deriving Repr, DecidableEq

/-- AppConfig.email. -/
structure ConfigEmail where
  smtp : Option ConfigSmtp
  fromAddr : String
  replyTo : Option String
  templates : EmailTemplates
deriving Repr, DecidableEq

/-- AppConfig.external: passthrough optional secrets. -/
structure ConfigExternal where
  apiKey : Option String
  webhookSecret : Option String
  sentryDsn : Option String
  redisUrl : Option String
deriving Repr, DecidableEq

/-- The composed configuration returned by createConfig. -/
structure AppConfig where
  app : AppIdentity
  database : ConfigDatabase
  auth : ConfigAuth
  email : ConfigEmail
  features : FeatureToggles
  rateLimit : RateLimitSettings
  logging : LoggingSettings
  performance : PerformanceSettings
  security : SecuritySettings
  api : ApiSettings
  external : ConfigExternal
deriving Repr, DecidableEq

/-- The record literal built at the end of createConfig, factored out of
the control flow for reuse in statements. -/
def buildConfig (environment : ValidatedEnvironment) (appSettings : AppSettings) : AppConfig :=
  { app := appSettings.app
    database :=
      { url := environment.DATABASE_URL
        maxConnections := appSettings.database.maxConnections
        queryTimeout := appSettings.database.queryTimeout
        enableLogging := appSettings.database.enableLogging
        retryAttempts := appSettings.database.retryAttempts }
    auth :=
      { secret := environment.BETTER_AUTH_SECRET
        baseUrl := environment.BETTER_AUTH_URL
        sessionDuration := appSettings.auth.sessionDuration
        tokenExpiry := appSettings.auth.tokenExpiry
        requireEmailVerification := appSettings.auth.requireEmailVerification
        oauth :=
          { github := { clientId := environment.GITHUB_CLIENT_ID
                        clientSecret := environment.GITHUB_CLIENT_SECRET }
            google := { clientId := environment.GOOGLE_CLIENT_ID
                        clientSecret := environment.GOOGLE_CLIENT_SECRET } } }
    email :=
      { smtp :=
          -- the source guards on truthiness of SMTP_HOST, so an empty
          -- string also yields no smtp block
          match environment.SMTP_HOST with
          | some host =>
            if host.isEmpty then none
            else some { host := some host, port := environment.SMTP_PORT,
                        user := environment.SMTP_USER, pass := environment.SMTP_PASS }
          | none => none
        fromAddr := appSettings.email.fromAddr
        replyTo := appSettings.email.replyTo
        templates := appSettings.email.templates }
    features := appSettings.features
    rateLimit := appSettings.rateLimit
    logging := appSettings.logging
    performance := appSettings.performance
    security := appSettings.security
    api := appSettings.api
    external :=
      { apiKey := environment.API_KEY
        webhookSecret := environment.WEBHOOK_SECRET
        sentryDsn := environment.SENTRY_DSN
        redisUrl := environment.REDIS_URL } }

/-- createConfig: validate the environment, select the settings bundle by
the validated tier, run the production-only check, then merge. -/
def createConfig (env : RawEnvironment) : Except String AppConfig :=
  match validateEnvironment env with
  | .error e => .error e
  | .ok environment =>
    let appSettings := getAppSettings environment.NODE_ENV
    if environment.NODE_ENV = "production" then
      match validateProductionEnvironment environment with
      | .error e => .error e
      | .ok _ => .ok (buildConfig environment appSettings)
    else
      .ok (buildConfig environment appSettings)

/-! ## Users (worker/schemas/user.ts)

Only the identity fields consulted by the container context and the
feature-flag rules are modelled; display-only fields (name, image,
timestamps, ...) play no role in the verified operations. -/

/-- An authenticated user identity. role is optional in the schema. -/
structure User where
  id : String
  email : String
  role : Option String := none
deriving Repr, DecidableEq

/-! ## Service container (worker/container/container.ts)

JavaScript objects are reference values, so the registry object shared by
a parent container and a derived container must be modelled explicitly:
a World holds every registry, and a container holds the index of the
registry it references. Instance identity (reference equality of
constructed services) is modelled by tagging every object constructed by
new with a fresh allocation number drawn from the World. -/

/-- A runtime value stored or produced by the container: null (the
database registration may be null), a plain value, or an object created
by invoking a registered constructor. Two objects are the same JavaScript
reference exactly when their allocation numbers agree. -/
inductive SVal where
  | null
  | num (n : Int)
  | str (s : String)
  | obj (ctorId : Nat) (allocId : Nat)
deriving Repr, DecidableEq

/-- The constructor field of a registration: either a service constructor
(identified by a number, invoked with new) or the thunk () => value that
registerValue stores alongside its precomputed instance. -/
inductive Ctor where
  | service (ctorId : Nat)
  | valueThunk (v : SVal)
deriving Repr, DecidableEq

/-- One entry of the ServiceRegistry: constructor, singleton flag and the
optional cached instance (none models an undefined instance field). -/
structure Registration where
  ctor : Ctor
  singleton : Bool
  inst : Option SVal
deriving Repr, DecidableEq

/-- The string-keyed registry object. -/
def Registry : Type := String → Option Registration

/-- Property assignment on the registry object: registry[token] = reg.
A write to an existing token replaces the previous registration. -/
def Registry.set (r : Registry) (token : String) (reg : Registration) : Registry :=
  fun t => if t = token then some reg else r t

/-- The mutable store of all registry objects plus the allocation
counter for object identities. -/
structure World where
  registries : Nat → Registry
  registryCount : Nat
  nextAlloc : Nat

/-- A world with no registries and no allocations. -/
def World.empty : World :=
  { registries := fun _ _ => none, registryCount := 0, nextAlloc := 0 }

/-- Overwrite one registry object in the world. -/
def World.setRegistry (w : World) (i : Nat) (r : Registry) : World :=
  { w with registries := fun j => if j = i then r else w.registries j }

/-- A container: the index of the registry object it references, plus its
own context (the environment it was built with and the optional user).
The back-reference from the context to the container itself is implicit
in this representation. -/
structure ContainerRef where
  registryRef : Nat
  env : RawEnvironment
  user : Option User
deriving Repr, DecidableEq

/-- The context returned by getContext. -/
structure ServiceContext where
  env : RawEnvironment
  user : Option User
deriving Repr, DecidableEq

namespace Container

/-- new Container(env, user): a fresh container owning a fresh, empty
registry object. -/
def new (env : RawEnvironment) (user : Option User) (w : World) : ContainerRef × World :=
  (⟨w.registryCount, env, user⟩,
   { w with registryCount := w.registryCount + 1 })

/-- withUser: builds a new container with the same environment and the
given user, then overwrites its registry field with the parent registry
object, sharing it by reference. (The registry allocated by the inner
new Container is immediately unreachable and is elided here.) -/
def withUser (c : ContainerRef) (user : User) : ContainerRef :=
  { registryRef := c.registryRef, env := c.env, user := some user }

/-- setUser: mutate the current container context in place. -/
def setUser (c : ContainerRef) (user : User) : ContainerRef :=
  { c with user := some user }

/-- register(token, constructor, options): stores the constructor with
options.singleton defaulting to true; no instance field is written. -/
def register (c : ContainerRef) (token : String) (ctorId : Nat)
    (singleton : Option Bool) (w : World) : World :=
  w.setRegistry c.registryRef
    ((w.registries c.registryRef).set token
      { ctor := .service ctorId, singleton := singleton.getD true, inst := none })

/-- registerValue(token, value): stores a thunk returning the value, the
singleton flag set to true, and the value itself as the instance. -/
def registerValue (c : ContainerRef) (token : String) (value : SVal) (w : World) : World :=
  w.setRegistry c.registryRef
    ((w.registries c.registryRef).set token
      { ctor := .valueThunk value, singleton := true, inst := some value })

/-- resolve(token): error when the token is absent; return the cached
instance when one exists (both the singleton branch and the plain
instance branch of the source return it); otherwise invoke the
constructor with the container as its sole argument — modelled as the
allocation of a fresh object identity tagged with the constructor — and
cache the result when the registration is a singleton. Invoking the
non-constructible arrow thunk stored by registerValue with new would be
a TypeError in the source; that branch is unreachable through the public
operations because registerValue always sets the instance. -/
def resolve (c : ContainerRef) (token : String) (w : World) :
    Except String (SVal × World) :=
  match w.registries c.registryRef token with
  | none => .error ("Service " ++ token ++ " not registered")
  | some registration =>
    if registration.singleton && registration.inst.isSome then
      .ok (registration.inst.getD .null, w)
    else if registration.inst.isSome then
      .ok (registration.inst.getD .null, w)
    else
      match registration.ctor with
      | .valueThunk _ => .error "TypeError: registration.constructor is not a constructor"
      | .service ctorId =>
        let inst := SVal.obj ctorId w.nextAlloc
        let w1 := { w with nextAlloc := w.nextAlloc + 1 }
        let w2 :=
          if registration.singleton then
            w1.setRegistry c.registryRef
              ((w1.registries c.registryRef).set token { registration with inst := some inst })
          else w1
        .ok (inst, w2)

/-- has(token): membership check only. -/
def has (c : ContainerRef) (token : String) (w : World) : Bool :=
  (w.registries c.registryRef token).isSome

/-- getContext. -/
def getContext (c : ContainerRef) : ServiceContext :=
  { env := c.env, user := c.user }

end Container

/-! ## Feature flag evaluator (lib/feature-flags.ts) -/

/-- The identity field a user rule matches on. -/
inductive RuleType where
  | user_id
  | email
  | role
  | email_domain
deriving Repr, DecidableEq

/-- The rule operator. The source literal for the membership operator is
the two-letter keyword, renamed inOp here because it is reserved in
Lean. -/
inductive RuleOp where
  | equals
  | contains
  | starts_with
  | ends_with
  | inOp
deriving Repr, DecidableEq

/-- A user-targeting rule. value is string | string[] in the source. -/
structure UserRule where
  type : RuleType
  operator : RuleOp
  value : Sum String (List String)
deriving Repr, DecidableEq

/-- A feature flag definition. -/
structure FeatureFlag where
  key : String
  enabled : Bool
  description : Option String := none
  rolloutPercentage : Option Int := none
  userRules : Option (List UserRule) := none
  environments : Option (List String) := none
deriving Repr, DecidableEq

/-- JavaScript String.prototype.includes on the character lists. -/
def charsContain : List Char → List Char → Bool
  | h, n =>
    if n.isPrefixOf h then true
    else
      match h with
      | [] => false
      | _ :: t => charsContain t n

/-- hay.includes(needle). -/
def strIncludes (hay needle : String) : Bool :=
  charsContain hay.toList needle.toList

namespace FeatureFlags

/-- The Map from flag key to definition held by the evaluator. -/
def FlagStore : Type := String → Option FeatureFlag

/-- The empty Map. -/
def FlagStore.empty : FlagStore := fun _ => none

/-- setFlag: this.flags.set(flag.key, flag). -/
def setFlag (flags : FlagStore) (flag : FeatureFlag) : FlagStore :=
  fun k => if k = flag.key then some flag else flags k

/-- loadFlags: insert every initial flag in order. The constructor of the
evaluator receives the composed config but never reads it (the parameter
is underscore-named in the source), so the store is the whole state. -/
def loadFlags (initialFlags : List FeatureFlag) : FlagStore :=
  initialFlags.foldl setFlag FlagStore.empty

/-- matchesValue: operator dispatch. Strict equality of a string against
an array value is false; contains, starts_with and ends_with require a
string rule value; the membership operator requires an array. -/
def matchesValue (userValue : String) (operator : RuleOp)
    (ruleValue : Sum String (List String)) : Bool :=
  match operator with
  | .equals =>
    match ruleValue with
    | .inl s => userValue == s
    | .inr _ => false
  | .contains =>
    match ruleValue with
    | .inl s => strIncludes userValue s
    | .inr _ => false
  | .starts_with =>
    match ruleValue with
    | .inl s => userValue.startsWith s
    | .inr _ => false
  | .ends_with =>
    match ruleValue with
    | .inl s => userValue.endsWith s
    | .inr _ => false
  | .inOp =>
    match ruleValue with
    | .inl _ => false
    | .inr l => l.contains userValue

/-- matchesUserRule: pick the identity field (role falls back to the
empty string when absent; the email domain is the chunk after the first
at-sign, or the empty string when there is none) and apply the
operator. -/
def matchesUserRule (rule : UserRule) (user : User) : Bool :=
  let userValue :=
    match rule.type with
    | .user_id => user.id
    | .email => user.email
    | .role => user.role.getD ""
    | .email_domain => (user.email.splitOn "@").getD 1 ""
  matchesValue userValue rule.operator rule.value

/-- evaluateUserRules: first matching rule returns true; when no rule
matches the result is null (none), so the caller falls through. -/
def evaluateUserRules : List UserRule → User → Option Bool
  | [], _ => none
  | rule :: rest, user =>
    if matchesUserRule rule user then some true
    else evaluateUserRules rest user

/-- ToInt32: the 32-bit signed wraparound performed by the bitwise
operations in the hash loop. -/
def toInt32 (n : Int) : Int :=
  let m := n % 4294967296
  if m < 2147483648 then m else m - 4294967296

/-- One iteration of the hash loop:
hash = (hash) shifted left by five bits (with Int32 wraparound) minus
hash plus the character code, then truncated to Int32 by the
self-conjunction. -/
def hashStep (hash : Int) (c : Nat) : Int :=
  toInt32 (toInt32 (hash * 32) - hash + c)

/-- The rolling character hash of the seed string, starting from zero.
charCodeAt yields UTF-16 code units, which agree with the unicode scalar
values of Lean characters on the flag keys and identifiers in scope. -/
def seedHash (seed : String) : Int :=
  seed.toList.foldl (fun h c => hashStep h c.toNat) 0

/-- shouldRolloutToUser: full and empty percentages short-circuit;
otherwise hash the seed built from the flag key and the user id (a
missing user, or a falsy empty id, falls back to the anonymous
identifier) and compare the reduced hash against the percentage. -/
def shouldRolloutToUser (flagKey : String) (user : Option User) (percentage : Int) : Bool :=
  if 100 ≤ percentage then true
  else if percentage ≤ 0 then false
  else
    let identifier :=
      match user with
      | some u => if u.id.isEmpty then "anonymous" else u.id
      | none => "anonymous"
    let seed := flagKey ++ ":" ++ identifier
    let userPercentage : Int := ((seedHash seed).natAbs % 100 : Nat)
    userPercentage < percentage

/-- The environment name the evaluator compares against: the source
hardcodes the development tier at this line (its inline comment reads
"Will use actual env when integrated"), so the running configuration
tier is never consulted. -/
def currentEnv : String := "development"

/-- The environment-restriction guard of isEnabled: a present, non-empty
environments list that does not contain currentEnv forces false. -/
def envRestricted (flag : FeatureFlag) : Bool :=
  match flag.environments with
  | none => false
  | some envs => decide (0 < envs.length) && !(envs.contains currentEnv)

/-- The user-rule step of isEnabled: consulted only when both a user and
rules are present. -/
def userRuleDecision (flag : FeatureFlag) (user : Option User) : Option Bool :=
  match user, flag.userRules with
  | some u, some rules => evaluateUserRules rules u
  | _, _ => none

/-- The tail of isEnabled: percentage rollout when defined, otherwise
the global enabled state of the flag. -/
def rolloutOrDefault (flag : FeatureFlag) (flagKey : String) (user : Option User) : Bool :=
  match flag.rolloutPercentage with
  | some p => shouldRolloutToUser flagKey user p
  | none => flag.enabled

/-- isEnabled(flagKey, user): unknown key false; kill switch false;
environment restriction false; then user rules, rollout, default. -/
def isEnabled (flags : FlagStore) (flagKey : String) (user : Option User) : Bool :=
  match flags flagKey with
  | none => false
  | some flag =>
    if !flag.enabled then false
    else if envRestricted flag then false
    else
      match userRuleDecision flag user with
      | some r => r
      | none => rolloutOrDefault flag flagKey user

end FeatureFlags

/-! ## BaseService list helpers (services/base.service.ts)

Each helper returns its result together with the contents of the callers
array after the call, translating the mutation behaviour of the array
method used: slice and filter return fresh arrays and leave the receiver
untouched, while sort rearranges the receiver in place and returns it. -/

namespace BaseService

/-- The pagination metadata block of a PaginatedResult. -/
structure PaginationMeta where
  page : Int
  limit : Int
  total : Nat
  pages : Int
deriving Repr, DecidableEq

/-- The result shape of applyPagination. -/
structure PaginatedResult (α : Type) where
  data : List α
  pagination : PaginationMeta
deriving Repr, DecidableEq

/-- Array.prototype.slice(start, stop): negative indices count from the
end, and both indices clamp to the array bounds. -/
def jsSlice {α : Type} (l : List α) (start stop : Int) : List α :=
  let len : Int := l.length
  let norm : Int → Nat := fun i =>
    if i < 0 then (max (len + i) 0).toNat else (min i len).toNat
  let s := norm start
  let e := norm stop
  (l.drop s).take (e - s)

/-- applyPagination(items, options): total, pages = ceil(total / limit)
(exact rational ceiling; the JS Infinity produced by a zero limit has no
integer counterpart and is outside every claim), offset = (page-1)*limit
and the slice. slice does not mutate, so the callers array after the
call is the input. -/
def applyPagination {α : Type} (items : List α) (page limit : Int) :
    PaginatedResult α × List α :=
  let total := items.length
  let pages : Int := ⌈(total : ℚ) / (limit : ℚ)⌉
  let offset := (page - 1) * limit
  let data := jsSlice items offset (offset + limit)
  (⟨data, ⟨page, limit, total, pages⟩⟩, items)

/-- The comparator passed to sort: 1 when the first key is greater, -1
when smaller, 0 otherwise, negated unless sortOrder is "asc" (the source
default for sortOrder is "desc"). -/
def jsComparator {β : Type} [LinearOrder β] (sortOrder : String) (a b : β) : Int :=
  let comparison : Int := if a > b then 1 else if a < b then -1 else 0
  if sortOrder == "asc" then comparison else -comparison

/-- Insert an element into an already comparator-sorted list, before the
first element the comparator orders strictly after it; elements the
comparator ties keep their original relative order. -/
def sortInsert {α : Type} (cmp : α → α → Int) (a : α) : List α → List α
  | [] => [a]
  | b :: t => if cmp a b ≤ 0 then a :: b :: t else b :: sortInsert cmp a t

/-- The engine sort consumed by applySorting: Array.prototype.sort with a
comparator, which ECMAScript requires to be stable. Any stable sort
agreeing with a consistent comparator yields the same sequence; an
insertion sort from the right realises it. -/
def jsSort {α : Type} (cmp : α → α → Int) : List α → List α
  | [] => []
  | a :: t => sortInsert cmp a (jsSort cmp t)

/-- applySorting(items, sortBy, sortOrder): items.sort(comparator).
Record field access items[sortBy] is modelled by a key projection. sort
sorts the receiver in place and returns it, so both components are the
sorted sequence. -/
def applySorting {α β : Type} [LinearOrder β] (items : List α) (sortBy : α → β)
    (sortOrder : String) : List α × List α :=
  let sorted := jsSort (fun a b => jsComparator sortOrder (sortBy a) (sortBy b)) items
  (sorted, sorted)

/-- applyTextSearch(items, searchTerm, searchFields): a falsy (empty)
term returns the items unchanged; otherwise keep the items where ANY
search field, stringified and lowercased, contains the lowercased term.
String(item[field]) is modelled by string-valued projections. filter
does not mutate, so the callers array after the call is the input. -/
def applyTextSearch {α : Type} (items : List α) (searchTerm : String)
    (searchFields : List (α → String)) : List α × List α :=
  if searchTerm.isEmpty then (items, items)
  else
    let term := searchTerm.toLower
    (items.filter (fun item =>
       searchFields.any (fun field => strIncludes ((field item).toLower) term)),
     items)

end BaseService

/-! ## Concrete fixtures used by witnesses and counterexamples -/

/-- A development-tier environment with no database url. -/
def c1EnvA : RawEnvironment := { NODE_ENV := some "development" }

/-- A development-tier environment that binds DATABASE_URL. -/
def c1EnvB : RawEnvironment :=
  { NODE_ENV := some "development", DATABASE_URL := some "https://db.example.com" }

/-- A staging-tier environment with no secrets. -/
def c1wEnv : RawEnvironment := { NODE_ENV := some "staging" }

/-- The parse of c1wEnv. -/
def c1wValidated : ValidatedEnvironment := { NODE_ENV := "staging" }

/-- The config composed from c1wEnv. -/
def c1wConfig : AppConfig := buildConfig c1wValidated (getAppSettings "staging")

/-- An environment with the tier field absent and an undersized auth
secret, so schema validation fails while the tier would default to
development. -/
def c3Env : RawEnvironment := { BETTER_AUTH_SECRET := some "short" }

/-- A staging-tier environment with an undersized auth secret. -/
def c3wEnv : RawEnvironment :=
  { NODE_ENV := some "staging", BETTER_AUTH_SECRET := some "short" }

/-- A production-tier environment with no auth secret. -/
def c9wEnvNone : RawEnvironment := { NODE_ENV := some "production" }

/-- A production-tier environment with a 32-character auth secret. -/
def c9wEnvOk : RawEnvironment :=
  { NODE_ENV := some "production",
    BETTER_AUTH_SECRET := some "0123456789abcdef0123456789abcdef" }

/-- The parse of c9wEnvOk. -/
def c9wValidated : ValidatedEnvironment :=
  { NODE_ENV := "production",
    BETTER_AUTH_SECRET := some "0123456789abcdef0123456789abcdef" }

/-- A flag allow-listed to the development environment only. -/
def c2Flag : FeatureFlag :=
  { key := "new_ui", enabled := true, environments := some ["development"] }

/-- An evaluator store holding only c2Flag. -/
def c2Store : FeatureFlags.FlagStore := FeatureFlags.loadFlags [c2Flag]

/-- A fresh container over an empty world. -/
def basePair : ContainerRef × World := Container.new {} none World.empty

/-- The fresh container. -/
def baseContainer : ContainerRef := basePair.1

/-- The world after creating baseContainer. -/
def baseWorld : World := basePair.2

/-- A request-scoped identity. -/
def baseUser : User := { id := "u1", email := "u1@example.com" }

/-- The world after baseContainer registered the singleton service 9
under the token svc and resolved it once, caching the instance. -/
def c7World : World :=
  match Container.resolve baseContainer "svc"
      (Container.register baseContainer "svc" 9 none baseWorld) with
  | .ok (_, w2) => w2
  | .error _ => baseWorld

/-- An enabled flag whose only rule requires the admin role, with no
environments list and no rollout percentage. -/
def c10Flag : FeatureFlag :=
  { key := "admin_panel", enabled := true,
    userRules := some [{ type := .role, operator := .equals, value := .inl "admin" }] }

/-- An evaluator store holding only c10Flag. -/
def c10Store : FeatureFlags.FlagStore := FeatureFlags.loadFlags [c10Flag]

/-- A user matching none of the rules of c10Flag. -/
def c10NonAdmin : User :=
  { id := "u2", email := "person@example.com", role := some "user" }

/-! ## Helper lemmas -/

/-- A successful EnvironmentSchema parse relates its output fields to
the raw input: the tier is the parsed NODE_ENV, the secret check passed
on the raw secret, and DATABASE_URL passes through unchanged. -/
theorem parseEnvironment_ok_fields {e : RawEnvironment} {v : ValidatedEnvironment}
    (h : parseEnvironment e = .ok v) :
    parseNodeEnv e.NODE_ENV = .ok v.NODE_ENV
    ∧ parseSecret e.BETTER_AUTH_SECRET = .ok v.BETTER_AUTH_SECRET
    ∧ v.DATABASE_URL = e.DATABASE_URL := by
  unfold parseEnvironment at h
  split at h
  · exact absurd h (by simp)
  · split at h
    · exact absurd h (by simp)
    · split at h
      · exact absurd h (by simp)
      · cases h
        refine ⟨by assumption, by assumption, rfl⟩

/-- evaluateUserRules never returns false: its only non-null result is
true, produced by the first matching rule. -/
theorem evaluateUserRules_some_true (rules : List UserRule) (u : User) (r : Bool)
    (h : FeatureFlags.evaluateUserRules rules u = some r) : r = true := by
  induction rules with
  | nil => simp [FeatureFlags.evaluateUserRules] at h
  | cons rule rest ih =>
    unfold FeatureFlags.evaluateUserRules at h
    split at h
    · cases h; rfl
    · exact ih h

/-! ## C1 -/

/-- C1, counterexample: the claim that every field of config.database.*
is sourced only from the settings bundle fails on the code. The two
environments c1EnvA and c1EnvB select the same tier, yet the database
groups of their composed configs differ, because config.database.url is
copied from RawEnvironment.DATABASE_URL by createConfig. -/
theorem C1_counterexample :
    c1EnvA.NODE_ENV = c1EnvB.NODE_ENV
    ∧ (createConfig c1EnvA).toOption.map (fun c => c.database)
        ≠ (createConfig c1EnvB).toOption.map (fun c => c.database) := by
  exact ⟨rfl, by decide⟩

/-- C1, amended: for every accepted RawEnvironment, the rateLimit,
logging and security groups of the composed config, and every
config.database.* field except url, are copied verbatim from the
settings bundle selected by the validated tier; config.database.url is
the only behavior-group field taken from RawEnvironment. Consequently
two accepted environments with the same tier agree on all behavior
fields except possibly database.url. -/
theorem C1_amended (env : RawEnvironment) (v : ValidatedEnvironment) (c : AppConfig)
    (hv : validateEnvironment env = .ok v)
    (hc : createConfig env = .ok c) :
    c.rateLimit = (getAppSettings v.NODE_ENV).rateLimit
    ∧ c.logging = (getAppSettings v.NODE_ENV).logging
    ∧ c.security = (getAppSettings v.NODE_ENV).security
    ∧ c.database.maxConnections = (getAppSettings v.NODE_ENV).database.maxConnections
    ∧ c.database.queryTimeout = (getAppSettings v.NODE_ENV).database.queryTimeout
    ∧ c.database.enableLogging = (getAppSettings v.NODE_ENV).database.enableLogging
    ∧ c.database.retryAttempts = (getAppSettings v.NODE_ENV).database.retryAttempts
    ∧ c.database.url = v.DATABASE_URL := by
  simp only [createConfig, hv] at hc
  split at hc
  · split at hc
    · exact absurd hc (by simp)
    · cases hc
      exact ⟨rfl, rfl, rfl, rfl, rfl, rfl, rfl, rfl⟩
  · cases hc
    exact ⟨rfl, rfl, rfl, rfl, rfl, rfl, rfl, rfl⟩

/-- C1, witness: the amended theorem applied to the staging environment
c1wEnv and its composed config. -/
theorem C1_amended_witness :
    c1wConfig.rateLimit = (getAppSettings c1wValidated.NODE_ENV).rateLimit
    ∧ c1wConfig.logging = (getAppSettings c1wValidated.NODE_ENV).logging
    ∧ c1wConfig.security = (getAppSettings c1wValidated.NODE_ENV).security
    ∧ c1wConfig.database.maxConnections
        = (getAppSettings c1wValidated.NODE_ENV).database.maxConnections
    ∧ c1wConfig.database.queryTimeout
        = (getAppSettings c1wValidated.NODE_ENV).database.queryTimeout
    ∧ c1wConfig.database.enableLogging
        = (getAppSettings c1wValidated.NODE_ENV).database.enableLogging
    ∧ c1wConfig.database.retryAttempts
        = (getAppSettings c1wValidated.NODE_ENV).database.retryAttempts
    ∧ c1wConfig.database.url = c1wValidated.DATABASE_URL :=
  C1_amended c1wEnv c1wValidated c1wConfig rfl rfl

/-! ## C3 -/

/-- C3, counterexample: the claim extends the development-tier swallow to
an absent tier field defaulting to development, but the source keys the
swallow on the raw NODE_ENV string. c3Env has no NODE_ENV (so schema
validation would default it to development) and an undersized secret;
validateEnvironment throws instead of returning the all-defaults result,
and no config is produced. -/
theorem C3_counterexample :
    c3Env.NODE_ENV = none
    ∧ (parseEnvironment c3Env).isOk = false
    ∧ validateEnvironment c3Env
        = .error "Environment validation failed: BETTER_AUTH_SECRET: string must contain at least 32 characters"
    ∧ (createConfig c3Env).isOk = false :=
  ⟨rfl, rfl, rfl, rfl⟩

/-- C3, amended: for a RawEnvironment failing schema validation, the
swallow applies exactly when the raw NODE_ENV field is literally the
development tier name: then validateEnvironment returns the all-defaults
parse and createConfig still produces the development config. With any
other raw NODE_ENV — including an absent field, which the schema would
default to development — the failure is fatal and no config is
produced. -/
theorem C3_amended (env : RawEnvironment)
    (hfail : (parseEnvironment env).isOk = false) :
    (env.NODE_ENV = some "development" →
      validateEnvironment env = .ok defaultEnvironment
      ∧ createConfig env = .ok (buildConfig defaultEnvironment developmentSettings))
    ∧ (env.NODE_ENV ≠ some "development" →
      (validateEnvironment env).isOk = false
      ∧ (createConfig env).isOk = false) := by
  cases hp : parseEnvironment env with
  | ok v => rw [hp] at hfail; simp [Except.isOk, Except.toBool] at hfail
  | error e =>
    constructor
    · intro hdev
      have hval : validateEnvironment env = .ok defaultEnvironment := by
        simp [validateEnvironment, hp, hdev]
      refine ⟨hval, ?_⟩
      simp only [createConfig, hval]
      rfl
    · intro hnot
      have hval : validateEnvironment env
          = .error ("Environment validation failed: " ++ e) := by
        simp [validateEnvironment, hp, hnot]
      refine ⟨by rw [hval]; rfl, ?_⟩
      simp only [createConfig, hval]
      rfl

/-- C3, witness: the amended theorem applied to the staging environment
c3wEnv with an undersized secret, extracting that validation and
composition both fail. -/
theorem C3_amended_witness :
    (parseEnvironment c3wEnv).isOk = false
    ∧ (validateEnvironment c3wEnv).isOk = false
    ∧ (createConfig c3wEnv).isOk = false :=
  ⟨rfl, ((C3_amended c3wEnv rfl).2 (by decide)).1, ((C3_amended c3wEnv rfl).2 (by decide)).2⟩

/-! ## C9 -/

/-- C9: in the production tier, composition fails when the auth secret
is absent (the production check throws) or shorter than 32 characters
(the schema minimum already throws); with a schema-valid environment
whose secret has at least 32 characters, composition succeeds. -/
theorem C9_production_secret (env : RawEnvironment)
    (hprod : env.NODE_ENV = some "production") :
    ((env.BETTER_AUTH_SECRET = none
        ∨ ∃ s, env.BETTER_AUTH_SECRET = some s ∧ s.length < 32) →
      (createConfig env).isOk = false)
    ∧ (∀ v, parseEnvironment env = .ok v →
        (∃ s, env.BETTER_AUTH_SECRET = some s ∧ 32 ≤ s.length) →
        (createConfig env).isOk = true) := by
  constructor
  · intro hbad
    cases hp : parseEnvironment env with
    | error e =>
      have hne : ¬ env.NODE_ENV = some "development" := by rw [hprod]; decide
      simp [createConfig, validateEnvironment, hp, hne, Except.isOk, Except.toBool]
    | ok v =>
      obtain ⟨hnode, hsec, -⟩ := parseEnvironment_ok_fields hp
      rw [hprod] at hnode
      have hvnode : v.NODE_ENV = "production" := by
        simp only [parseNodeEnv] at hnode
        simp at hnode
        exact hnode.symm
      cases hbad with
      | inl hnone =>
        have hvsec : v.BETTER_AUTH_SECRET = none := by
          rw [hnone] at hsec
          simp only [parseSecret] at hsec
          simp at hsec
          exact hsec.symm
        simp [createConfig, validateEnvironment, validateProductionEnvironment,
              hp, hvnode, hvsec, Except.isOk, Except.toBool]
      | inr hshort =>
        obtain ⟨s, hs, hlen⟩ := hshort
        rw [hs] at hsec
        simp only [parseSecret] at hsec
        rw [if_neg (by omega)] at hsec
        exact absurd hsec (by simp)
  · intro v hp hgood
    obtain ⟨s, hs, hlen⟩ := hgood
    obtain ⟨hnode, hsec, -⟩ := parseEnvironment_ok_fields hp
    rw [hprod] at hnode
    have hvnode : v.NODE_ENV = "production" := by
      simp only [parseNodeEnv] at hnode
      simp at hnode
      exact hnode.symm
    have hvsec : v.BETTER_AUTH_SECRET = some s := by
      rw [hs] at hsec
      simp only [parseSecret] at hsec
      rw [if_pos hlen] at hsec
      simp at hsec
      exact hsec.symm
    have hlen2 : ¬ s.length < 32 := by omega
    simp [createConfig, validateEnvironment, validateProductionEnvironment,
          hp, hvnode, hvsec, hlen2, Except.isOk, Except.toBool]

/-- C9, witness: the theorem applied to a production environment without
a secret and to one with a 32-character secret. -/
theorem C9_witness :
    (createConfig c9wEnvNone).isOk = false
    ∧ (createConfig c9wEnvOk).isOk = true :=
  ⟨(C9_production_secret c9wEnvNone rfl).1 (Or.inl rfl),
   (C9_production_secret c9wEnvOk rfl).2 c9wValidated rfl
     ⟨"0123456789abcdef0123456789abcdef", rfl, by decide⟩⟩

/-! ## C2 -/

/-- C2: the code is the divergent side. The evaluator never consults the
running configuration tier: isEnabled takes no tier input, and the
environment restriction compares against the hardcoded currentEnv
string (the source comment at that line reads "Will use actual env when
integrated"). For the flag c2Flag, allow-listed to the development
environment only while the staging tier name is not in the list, the
claim requires false under a staging deployment, yet evaluation returns
true. -/
theorem C2_code_eval :
    c2Store "new_ui" = some c2Flag
    ∧ c2Flag.enabled = true
    ∧ c2Flag.environments = some ["development"]
    ∧ ¬ stagingSettings.app.environment ∈ ["development"]
    ∧ FeatureFlags.currentEnv = "development"
    ∧ FeatureFlags.isEnabled c2Store "new_ui" none = true := by
  refine ⟨rfl, rfl, rfl, by decide, rfl, rfl⟩

/-! ## C4 -/

/-- C4, counterexample: applySorting is not pure over its input array.
Sorting the unsorted two-element array in ascending order by first
component leaves the callers array holding the sorted sequence, not its
original contents. -/
theorem C4_counterexample :
    (BaseService.applySorting ([(2, 0), (1, 0)] : List (Int × Int)) Prod.fst "asc").2
      ≠ [(2, 0), (1, 0)] := by
  decide

/-- C4, amended: applyPagination and applyTextSearch are pure over their
input sequence — the callers array after the call is the input, and each
result is a function of the arguments alone. applySorting instead sorts
the callers array in place: after the call the array holds exactly the
returned sorted sequence. -/
theorem C4_amended {α β : Type} [LinearOrder β] (items : List α) (page limit : Int)
    (term : String) (fields : List (α → String)) (sortBy : α → β) (sortOrder : String) :
    (BaseService.applyPagination items page limit).2 = items
    ∧ (BaseService.applyTextSearch items term fields).2 = items
    ∧ (BaseService.applySorting items sortBy sortOrder).2
        = (BaseService.applySorting items sortBy sortOrder).1 := by
  refine ⟨rfl, ?_, rfl⟩
  cases h : term.isEmpty <;> simp [BaseService.applyTextSearch, h]

/-! ## C5 -/

/-- C5, counterexample: registration is not write-once. Registering the
constructor 1 under a token and then registering the constructor 2 under
the same token leaves the registry holding the second registration: the
second register call replaced the first. -/
theorem C5_counterexample :
    ((Container.register baseContainer "svc" 2 none
        (Container.register baseContainer "svc" 1 none baseWorld)).registries
      baseContainer.registryRef) "svc"
      = some { ctor := .service 2, singleton := true, inst := none }
    ∧ ((Container.register baseContainer "svc" 1 none baseWorld).registries
        baseContainer.registryRef) "svc"
      = some { ctor := .service 1, singleton := true, inst := none } :=
  ⟨rfl, rfl⟩

/-- C5, amended: registration is last-write-wins — a subsequent register
or registerValue call on an already-registered token replaces the stored
registration unconditionally — while resolving an unregistered token is
an error, as claimed. -/
theorem C5_amended (w : World) (c : ContainerRef) (t : String) (i j : Nat)
    (s1 s2 : Option Bool) (v : SVal) :
    (Container.register c t j s2 (Container.register c t i s1 w)).registries
        c.registryRef t
      = some { ctor := .service j, singleton := s2.getD true, inst := none }
    ∧ (Container.registerValue c t v (Container.register c t i s1 w)).registries
        c.registryRef t
      = some { ctor := .valueThunk v, singleton := true, inst := some v }
    ∧ (w.registries c.registryRef t = none →
        Container.resolve c t w = .error ("Service " ++ t ++ " not registered")) := by
  refine ⟨?_, ?_, ?_⟩
  · simp [Container.register, World.setRegistry, Registry.set]
  · simp [Container.registerValue, Container.register, World.setRegistry, Registry.set]
  · intro h
    simp [Container.resolve, h]

/-- C5, witness: the amended theorem applied over the empty base world,
with the re-registration of token t and the unregistered token lookup
instantiated concretely. -/
theorem C5_amended_witness :
    (Container.register baseContainer "t" 5 none
        (Container.register baseContainer "t" 4 (some false) baseWorld)).registries
        baseContainer.registryRef "t"
      = some { ctor := .service 5, singleton := true, inst := none }
    ∧ (Container.registerValue baseContainer "t" (SVal.str "v")
        (Container.register baseContainer "t" 4 (some false) baseWorld)).registries
        baseContainer.registryRef "t"
      = some { ctor := .valueThunk (SVal.str "v"), singleton := true,
               inst := some (SVal.str "v") }
    ∧ (baseWorld.registries baseContainer.registryRef "t" = none →
        Container.resolve baseContainer "t" baseWorld
          = .error ("Service " ++ "t" ++ " not registered")) :=
  C5_amended baseWorld baseContainer "t" 4 5 (some false) none (SVal.str "v")

/-! ## C6 -/

/-- C6: the resolve contract. Resolving an unregistered token always
throws the service-not-registered error. After register with the
singleton option omitted (defaulting to true), the first resolve
succeeds and returns an instance of the registered constructor (modelled
as a fresh object identity tagged with it, allocated by invoking the
constructor with the container), and a second resolve returns the
identical cached instance with no further state change. After register
with singleton false, two successive resolves return distinct
instances. -/
theorem C6_resolve_contract (w : World) (c : ContainerRef) (t : String) (i : Nat) :
    (w.registries c.registryRef t = none →
      Container.resolve c t w = .error ("Service " ++ t ++ " not registered"))
    ∧ (∀ v w2, Container.resolve c t (Container.register c t i none w) = .ok (v, w2) →
        (∃ a, v = SVal.obj i a) ∧ Container.resolve c t w2 = .ok (v, w2))
    ∧ (∀ v1 w2 v2 w3,
        Container.resolve c t (Container.register c t i (some false) w) = .ok (v1, w2) →
        Container.resolve c t w2 = .ok (v2, w3) → v1 ≠ v2)
    ∧ (Container.resolve c t (Container.register c t i none w)).isOk = true := by
  refine ⟨?_, ?_, ?_, ?_⟩
  · intro h
    simp [Container.resolve, h]
  · intro v w2 h
    simp [Container.resolve, Container.register, World.setRegistry, Registry.set] at h
    obtain ⟨hv, hw⟩ := h
    subst hv
    subst hw
    refine ⟨⟨w.nextAlloc, rfl⟩, ?_⟩
    simp [Container.resolve, World.setRegistry, Registry.set]
  · intro v1 w2 v2 w3 h1 h2
    simp [Container.resolve, Container.register, World.setRegistry, Registry.set] at h1
    obtain ⟨hv1, hw2⟩ := h1
    subst hv1
    subst hw2
    simp [Container.resolve, World.setRegistry, Registry.set] at h2
    obtain ⟨hv2, -⟩ := h2
    subst hv2
    simp
  · simp [Container.resolve, Container.register, World.setRegistry, Registry.set,
          Except.isOk, Except.toBool]

/-- C6, witness: the contract applied to the base container, giving the
error on an unregistered token and a successful first resolve after
registration. -/
theorem C6_witness :
    Container.resolve baseContainer "orphan" baseWorld
      = .error ("Service " ++ "orphan" ++ " not registered")
    ∧ (Container.resolve baseContainer "svc"
        (Container.register baseContainer "svc" 3 none baseWorld)).isOk = true :=
  ⟨(C6_resolve_contract baseWorld baseContainer "orphan" 3).1 rfl,
   (C6_resolve_contract baseWorld baseContainer "svc" 3).2.2.2⟩

/-! ## C7 -/

/-- C7: withUser returns a container sharing the parent registry object
by reference, so any token whose singleton instance is already cached in
the parent resolves through the derived container to the same cached
instance without touching the world; the derived context carries the new
user while the parent container and its context are untouched by the
call. -/
theorem C7_withUser (w : World) (c : ContainerRef) (t : String) (u : User)
    (reg : Registration) (v : SVal)
    (hreg : w.registries c.registryRef t = some reg)
    (hsing : reg.singleton = true) (hinst : reg.inst = some v) :
    (Container.withUser c u).registryRef = c.registryRef
    ∧ Container.resolve (Container.withUser c u) t w = .ok (v, w)
    ∧ (Container.getContext (Container.withUser c u)).user = some u
    ∧ (Container.getContext (Container.withUser c u)).env = c.env
    ∧ (Container.getContext c).user = c.user := by
  refine ⟨rfl, ?_, rfl, rfl, rfl⟩
  simp [Container.resolve, Container.withUser, hreg, hsing, hinst]

/-- C7, witness: after baseContainer cached the singleton instance of
constructor 9 (the world c7World), the derived container resolves the
same object identity and carries baseUser in its context. -/
theorem C7_witness :
    Container.resolve (Container.withUser baseContainer baseUser) "svc" c7World
      = .ok (SVal.obj 9 0, c7World)
    ∧ (Container.getContext (Container.withUser baseContainer baseUser)).user
        = some baseUser :=
  ⟨(C7_withUser c7World baseContainer "svc" baseUser
      { ctor := .service 9, singleton := true, inst := some (.obj 9 0) }
      (SVal.obj 9 0) rfl rfl rfl).2.1,
   (C7_withUser c7World baseContainer "svc" baseUser
      { ctor := .service 9, singleton := true, inst := some (.obj 9 0) }
      (SVal.obj 9 0) rfl rfl rfl).2.2.1⟩

/-! ## C8 -/

/-- C8: after registerValue(token, v), every resolve of the token
returns exactly v without constructing anything (the world is
unchanged): through the registering container, through a derived
container, and through a derived container of the derived container.
Moreover the result does not depend on the singleton flag: any
registration whose instance field holds v resolves to v, whatever its
flag. -/
theorem C8_registerValue (w : World) (c : ContainerRef) (t : String) (v : SVal)
    (u u2 : User) :
    Container.resolve c t (Container.registerValue c t v w)
      = .ok (v, Container.registerValue c t v w)
    ∧ Container.resolve (Container.withUser c u) t (Container.registerValue c t v w)
      = .ok (v, Container.registerValue c t v w)
    ∧ Container.resolve (Container.withUser (Container.withUser c u) u2) t
        (Container.registerValue c t v w)
      = .ok (v, Container.registerValue c t v w)
    ∧ (∀ reg : Registration, reg.inst = some v →
        Container.resolve c t
            (w.setRegistry c.registryRef ((w.registries c.registryRef).set t reg))
          = .ok (v, w.setRegistry c.registryRef
              ((w.registries c.registryRef).set t reg))) := by
  refine ⟨?_, ?_, ?_, ?_⟩
  · simp [Container.resolve, Container.registerValue, World.setRegistry, Registry.set]
  · simp [Container.resolve, Container.registerValue, Container.withUser,
          World.setRegistry, Registry.set]
  · simp [Container.resolve, Container.registerValue, Container.withUser,
          World.setRegistry, Registry.set]
  · intro reg hinst
    cases hs : reg.singleton <;>
      simp [Container.resolve, World.setRegistry, Registry.set, hinst, hs]

/-- C8, witness: the theorem applied to a concrete registered value,
resolved through the base container and through two derived
containers. -/
theorem C8_witness :
    Container.resolve baseContainer "cfg"
        (Container.registerValue baseContainer "cfg" (SVal.str "composed") baseWorld)
      = .ok (SVal.str "composed",
             Container.registerValue baseContainer "cfg" (SVal.str "composed") baseWorld)
    ∧ Container.resolve (Container.withUser baseContainer baseUser) "cfg"
        (Container.registerValue baseContainer "cfg" (SVal.str "composed") baseWorld)
      = .ok (SVal.str "composed",
             Container.registerValue baseContainer "cfg" (SVal.str "composed") baseWorld) :=
  ⟨(C8_registerValue baseWorld baseContainer "cfg" (SVal.str "composed")
      baseUser baseUser).1,
   (C8_registerValue baseWorld baseContainer "cfg" (SVal.str "composed")
      baseUser baseUser).2.1⟩

/-! ## C10 -/

/-- C10: for an existing flag with enabled true, a non-empty rule list,
no environments restriction and no rollout percentage, isEnabled returns
true for every optional identity: a matching rule returns true directly,
and a non-matching rule list (or an absent identity) falls through to
the final return of the enabled state. User rules can only widen access,
never restrict it. -/
theorem C10_userRules_widen (flags : FeatureFlags.FlagStore) (flagKey : String)
    (flag : FeatureFlag) (user : Option User) (rules : List UserRule)
    (hget : flags flagKey = some flag)
    (hen : flag.enabled = true)
    (hrules : flag.userRules = some rules)
    (hne : rules ≠ [])
    (henv : flag.environments = none)
    (hroll : flag.rolloutPercentage = none) :
    FeatureFlags.isEnabled flags flagKey user = true := by
  simp only [FeatureFlags.isEnabled, hget]
  rw [if_neg (by simp [hen]), if_neg (by simp [FeatureFlags.envRestricted, henv])]
  cases user with
  | none =>
    simp [FeatureFlags.userRuleDecision, FeatureFlags.rolloutOrDefault, hroll, hen]
  | some u =>
    simp only [FeatureFlags.userRuleDecision, hrules]
    cases hr : FeatureFlags.evaluateUserRules rules u with
    | none => simp [FeatureFlags.rolloutOrDefault, hroll, hen]
    | some r => simpa using evaluateUserRules_some_true rules u r hr

/-- C10, witness: the flag c10Flag whose only rule requires the admin
role evaluates to true for a non-admin user and for an absent
identity. -/
theorem C10_witness :
    FeatureFlags.isEnabled c10Store "admin_panel" (some c10NonAdmin) = true
    ∧ FeatureFlags.isEnabled c10Store "admin_panel" none = true :=
  ⟨C10_userRules_widen c10Store "admin_panel" c10Flag (some c10NonAdmin)
      [{ type := .role, operator := .equals, value := .inl "admin" }]
      rfl rfl rfl (by decide) rfl rfl,
   C10_userRules_widen c10Store "admin_panel" c10Flag none
      [{ type := .role, operator := .equals, value := .inl "admin" }]
      rfl rfl rfl (by decide) rfl rfl⟩

end FullstackTemplate
